import Mathlib

/-
  Shallow embedding of the google-recaptcha-multisite package:
  - RecaptchaValidatorResolver.resolve (secret resolution priority chain)
  - GoogleRecaptchaGuard.canActivate (skip predicate, option precedence,
    site-key resolution, outcome branching, request mutation)

  JavaScript truthiness is modelled explicitly where the source relies on it:
  `if (siteKey)` treats the empty string as absent, `options?.score || cfg.score`
  treats the number 0 as absent, `sites?.length > 0` is false for an undefined
  sites array and for an empty one, and `if (SECRET_MAP[k])` is a truthiness
  test on the looked-up value.
-/

namespace RecaptchaMultisite

/-- Error codes of the ErrorCode enum (only the kinds the claims touch are
listed; the rest of the enum is inert data). -/
inductive ErrorCode where
  | MissingInputSecret
  | MissingInputResponse
  | InvalidInputSecret
  | InvalidInputResponse
  | LowScore
  | ForbiddenAction
  | UnknownError
  deriving DecidableEq, Repr

/-- GoogleRecaptchaException as constructed at its call sites: a list of error
codes and an optional message string (the resolver passes a message, the guard
does not). -/
structure GoogleRecaptchaException where
  errors : List ErrorCode
  message : Option String := none
  deriving DecidableEq, Repr

/-- One entry of the `sites` array: `{ siteKey, secretKey, name? }`. -/
structure SiteConfig where
  siteKey : String
  secretKey : String
  name : Option String := none
  deriving DecidableEq, Repr

/-- Result of one verification call (`GoogleRecaptchaValidationResult`):
success flag, optional score, optional action, error reasons. Scores are
rationals standing for the JS numbers. -/
structure ValidationResult where
  success : Bool
  score : Option ℚ := none
  action : Option String := none
  errors : List ErrorCode := []
  deriving DecidableEq, Repr

/-- The incoming request object (`LiteralObject`): the headers map and the
`recaptchaValidationResult` field the guard writes. Other fields (url, method,
body) are only read by user-supplied extractor functions, which the embedding
keeps abstract as functions on this type. -/
structure Request where
  headers : List (String × String) := []
  recaptchaValidationResult : Option ValidationResult := none
  deriving DecidableEq, Repr

/-- The `skipIf` configuration value: a boolean or a request predicate. -/
inductive SkipIf where
  | bool (b : Bool)
  | fn (f : Request → Bool)

/-- The module-level configuration (`RecaptchaConfigRef.valueOf`), with the
fields the resolver and the guard read. Extractors are abstract functions;
a missing optional field is `none`. -/
structure RecaptchaConfig where
  enterprise : Bool := false
  sites : Option (List SiteConfig) := none
  secretKey : Option String := none
  skipIf : Option SkipIf := none
  response : Request → Option String
  remoteIp : Option (Request → Option String) := none
  score : Option ℚ := none
  debug : Bool := false

/-- Decorator options (`VerifyResponseDecoratorOptions`); a route with no
decorator yields the all-`none` record (the source's `|| {}`). -/
structure DecoratorOptions where
  response : Option (Request → Option String) := none
  remoteIp : Option (Request → Option String) := none
  score : Option ℚ := none
  action : Option String := none
  site : Option String := none

/-- The validator returned by the resolver: the enterprise strategy, or the
standard strategy carrying the secret bound by `setCurrentSecretKey` (`none`
when no per-site secret was bound, so the module-level default applies at
validation time). -/
inductive ResolvedValidator where
  | enterprise
  | standard (currentSecretKey : Option String)
  deriving DecidableEq, Repr

/-- JS truthiness of an optional string: `undefined` and the empty string are
falsy. -/
def jsTruthyStr : Option String → Bool
  | none => false
  | some s => !(s == "")

/-- Lookup in the process-wide GOOGLE_RECAPTCHA_SECRET_MAP object, modelled as
an association list. -/
def lookupSecretMap (m : List (String × String)) (k : String) : Option String :=
  (m.find? (fun p => p.1 == k)).map Prod.snd

/-- The per-site lookup `this.configRef.valueOf.sites.find(site => site.siteKey
=== siteKey)`, guarded by the source's `if (this.configRef.valueOf.sites)`
(any array, even empty, is truthy; `undefined` is falsy). -/
def sitesFind (cfg : RecaptchaConfig) (s : String) : Option SiteConfig :=
  match cfg.sites with
  | some sites => sites.find? (fun site => site.siteKey == s)
  | none => none

/-- The exception thrown when no secret resolves for a supplied site key. -/
def missingSecretExc (s : String) : GoogleRecaptchaException :=
  { errors := [ErrorCode.MissingInputSecret],
    message := some ("No secret key found for site key: " ++ s) }

/-- RecaptchaValidatorResolver.resolve. Enterprise mode short-circuits to the
enterprise validator. Otherwise, with a truthy siteKey: the sites array is
consulted first, then the global secret map (whose value is itself
truthiness-tested), else the missing-input-secret exception is thrown. With a
falsy siteKey: the first sites entry when `sites?.length > 0`, else the bare
standard validator. -/
def resolve (cfg : RecaptchaConfig) (secretMap : List (String × String))
    (siteKey : Option String) : Except GoogleRecaptchaException ResolvedValidator :=
  if cfg.enterprise then
    Except.ok ResolvedValidator.enterprise
  else if jsTruthyStr siteKey then
    let s := siteKey.getD ""
    match sitesFind cfg s with
    | some siteConfig => Except.ok (ResolvedValidator.standard (some siteConfig.secretKey))
    | none =>
      match lookupSecretMap secretMap s with
      | some v =>
        if v == "" then Except.error (missingSecretExc s)
        else Except.ok (ResolvedValidator.standard (some v))
      | none => Except.error (missingSecretExc s)
  else
    match cfg.sites with
    | some (first :: _) => Except.ok (ResolvedValidator.standard (some first.secretKey))
    | _ => Except.ok (ResolvedValidator.standard none)

/-- The validation request handed to `validator.validate({ response, remoteIp,
score, action })`. -/
structure ValidationRequest where
  response : Option String
  remoteIp : Option String
  score : Option ℚ
  action : Option String
  deriving DecidableEq, Repr

/-- Outcome of one guard run: the returned value or thrown exception, together
with the (possibly mutated) request object. -/
structure GuardOutcome where
  result : Except GoogleRecaptchaException Bool
  request : Request

/-- The skip decision `typeof skipIfValue === 'function' ? await
skipIfValue(request) : !!skipIfValue`. -/
def evalSkipIf : Option SkipIf → Request → Bool
  | none, _ => false
  | some (SkipIf.bool b), _ => b
  | some (SkipIf.fn f), req => f req

/-- The request header read `request.headers['x-recaptcha-sitekey']`. -/
def headerSiteKey (req : Request) : Option String :=
  (req.headers.find? (fun p => p.1 == "x-recaptcha-sitekey")).map Prod.snd

/-- Site-key resolution of the guard (source lines 48-57): start from the
header value; when `options.site` is truthy and `cfg.sites` is defined, look
the decorator-supplied name up among the configured sites and, only on a
match, replace the header value with that entry's siteKey. -/
def resolveSiteKey (cfg : RecaptchaConfig) (opts : DecoratorOptions)
    (req : Request) : Option String :=
  match opts.site, cfg.sites with
  | some s, some sites =>
    if s == "" then headerSiteKey req
    else
      match sites.find? (fun site => site.name == some s) with
      | some siteConfig => some siteConfig.siteKey
      | none => headerSiteKey req
  | _, _ => headerSiteKey req

/-- Token extraction `options?.response ? await options.response(request) :
await this.configRef.valueOf.response(request)`. -/
def resolvedResponse (cfg : RecaptchaConfig) (opts : DecoratorOptions)
    (req : Request) : Option String :=
  match opts.response with
  | some f => f req
  | none => cfg.response req

/-- Client-address extraction `options?.remoteIp ? await
options.remoteIp(request) : await this.configRef.valueOf.remoteIp &&
this.configRef.valueOf.remoteIp(request)`: an undefined module-level extractor
yields undefined rather than an error. -/
def resolvedRemoteIp (cfg : RecaptchaConfig) (opts : DecoratorOptions)
    (req : Request) : Option String :=
  match opts.remoteIp with
  | some f => f req
  | none =>
    match cfg.remoteIp with
    | some f => f req
    | none => none

/-- Score resolution `options?.score || this.configRef.valueOf.score`: a
truthiness fallback, so a decorator score of 0 (falsy in JS) is replaced by
the module-level score. -/
def resolvedScore (cfg : RecaptchaConfig) (opts : DecoratorOptions) : Option ℚ :=
  match opts.score with
  | some q => if q = 0 then cfg.score else some q
  | none => cfg.score

/-- The argument object of `validator.validate({ response, remoteIp, score,
action })` as the guard assembles it. -/
def guardValidationRequest (cfg : RecaptchaConfig) (opts : DecoratorOptions)
    (req : Request) : ValidationRequest :=
  { response := resolvedResponse cfg opts req,
    remoteIp := resolvedRemoteIp cfg opts req,
    score := resolvedScore cfg opts,
    action := opts.action }

/-- GoogleRecaptchaGuard.canActivate. The outbound verification call is kept
abstract as the `validate` argument (the network behaviour of the strategy is
outside this component): given the resolved validator and the assembled
validation request it yields the validation result. Console/debug logging is
elided as pure observation. -/
def canActivate (cfg : RecaptchaConfig) (secretMap : List (String × String))
    (validate : ResolvedValidator → ValidationRequest → ValidationResult)
    (opts : DecoratorOptions) (req : Request) : GuardOutcome :=
  if evalSkipIf cfg.skipIf req then
    { result := Except.ok true, request := req }
  else
    match resolve cfg secretMap (resolveSiteKey cfg opts req) with
    | Except.error e => { result := Except.error e, request := req }
    | Except.ok validator =>
      let vres := validate validator (guardValidationRequest cfg opts req)
      let req2 := { req with recaptchaValidationResult := some vres }
      if vres.success then
        { result := Except.ok true, request := req2 }
      else
        { result := Except.error { errors := vres.errors, message := none },
          request := req2 }

/-- Concrete fixtures used by the witness theorems: one configured site, one
runtime secret-map entry, a request whose header names the configured site. -/
def exSiteA : SiteConfig := { siteKey := "A", secretKey := "sA", name := some "eufy" }

def exCfg : RecaptchaConfig :=
  { response := fun _ => some "tok", sites := some [exSiteA] }

def exMap : List (String × String) := [("B", "sB")]

def exReq : Request := { headers := [("x-recaptcha-sitekey", "A")] }

def exOpts : DecoratorOptions :=
  { response := some (fun _ => some "tok2"), score := some (8/10 : ℚ) }

def exValidateFail : ResolvedValidator → ValidationRequest → ValidationResult :=
  fun _ _ => { success := false, errors := [ErrorCode.LowScore] }

/-- Claim C1: with enterprise mode off and a (nonempty, hence JS-truthy) site
identifier passed to `resolve`, the secret bound to the returned validator is
the first found in strict order: a matching `sites` entry wins for every
content of the global secret map (the map is never consulted), and only when
no `sites` entry matches is the map entry under the identifier bound. -/
theorem resolve_secret_priority (cfg : RecaptchaConfig) (s : String)
    (hent : cfg.enterprise = false) (hs : s ≠ "") :
    (∀ e, sitesFind cfg s = some e →
      ∀ m, resolve cfg m (some s)
        = Except.ok (ResolvedValidator.standard (some e.secretKey)))
    ∧ (sitesFind cfg s = none →
      ∀ m v, lookupSecretMap m s = some v → v ≠ "" →
        resolve cfg m (some s)
          = Except.ok (ResolvedValidator.standard (some v))) := by
  constructor
  · intro e he m
    simp [resolve, hent, jsTruthyStr, hs, he]
  · intro hn m v hv hvne
    simp [resolve, hent, jsTruthyStr, hs, hn, hv, hvne]

/-- Witness for C1: site "A" is configured with secret "sA" and the map only
knows "B", so resolution for "A" binds "sA" from the sites list. -/
theorem resolve_secret_priority_witness :
    resolve exCfg exMap (some "A")
      = Except.ok (ResolvedValidator.standard (some "sA")) :=
  (resolve_secret_priority exCfg "A" rfl (by decide)).1 exSiteA (by rfl) exMap

/-- Claim C2: with enterprise mode off, a nonempty site identifier that
matches no `sites` entry and is absent from the global secret map makes
`resolve` throw a GoogleRecaptchaException with the MissingInputSecret error
kind and a message naming the identifier; no validator is returned. -/
theorem resolve_missing_secret (cfg : RecaptchaConfig)
    (m : List (String × String)) (s : String)
    (hent : cfg.enterprise = false) (hs : s ≠ "")
    (hsites : sitesFind cfg s = none)
    (hmap : lookupSecretMap m s = none) :
    resolve cfg m (some s) = Except.error
      { errors := [ErrorCode.MissingInputSecret],
        message := some ("No secret key found for site key: " ++ s) } := by
  simp [resolve, hent, jsTruthyStr, hs, hsites, hmap, missingSecretExc]

/-- Witness for C2: identifier "C" is neither a configured site nor a map key,
so resolution throws the missing-input-secret exception mentioning "C". -/
theorem resolve_missing_secret_witness :
    resolve exCfg exMap (some "C") = Except.error
      { errors := [ErrorCode.MissingInputSecret],
        message := some "No secret key found for site key: C" } :=
  resolve_missing_secret exCfg exMap "C" rfl (by decide) (by rfl) (by rfl)

/-- Claim C4: with enterprise mode off and no site identifier supplied,
`resolve` binds the first `sites` entry's secretKey when the list is
non-empty, and otherwise returns the standard validator with no per-site
secret bound — for every configuration, in particular whatever
`cfg.secretKey` is (including `none`): no validation of a default secret
happens here. -/
theorem resolve_without_siteKey (cfg : RecaptchaConfig)
    (m : List (String × String)) (hent : cfg.enterprise = false) :
    (∀ first rest, cfg.sites = some (first :: rest) →
      resolve cfg m none
        = Except.ok (ResolvedValidator.standard (some first.secretKey)))
    ∧ ((cfg.sites = none ∨ cfg.sites = some []) →
      resolve cfg m none = Except.ok (ResolvedValidator.standard none)) := by
  constructor
  · intro first rest hsites
    simp [resolve, hent, jsTruthyStr, hsites]
  · rintro (hsites | hsites) <;> simp [resolve, hent, jsTruthyStr, hsites]

/-- Witness for C4: with no site identifier, the single configured site's
secret "sA" is bound. -/
theorem resolve_without_siteKey_witness :
    resolve exCfg exMap none
      = Except.ok (ResolvedValidator.standard (some "sA")) :=
  (resolve_without_siteKey exCfg exMap rfl).1 exSiteA [] (by rfl)

/-- Claim C5: with the enterprise flag set, `resolve` returns the enterprise
validator for every site identifier argument and every content of the sites
list and the global map (both are irrelevant to the result), and never
throws. -/
theorem resolve_enterprise_mode (cfg : RecaptchaConfig)
    (m : List (String × String)) (siteKey : Option String)
    (hent : cfg.enterprise = true) :
    resolve cfg m siteKey = Except.ok ResolvedValidator.enterprise := by
  simp [resolve, hent]

/-- Witness for C5: an enterprise configuration resolves to the enterprise
validator even for an unknown site identifier. -/
theorem resolve_enterprise_mode_witness :
    resolve { exCfg with enterprise := true } exMap (some "C")
      = Except.ok ResolvedValidator.enterprise :=
  resolve_enterprise_mode { exCfg with enterprise := true } exMap (some "C") rfl

/-- Claim C3: when the configured skipIf is the boolean true, or a function
whose application to the request is true, canActivate returns true with the
request untouched — for every secret map and every verification behaviour, so
no validator is resolved and no verification call is made. -/
theorem canActivate_skipIf (cfg : RecaptchaConfig) (m : List (String × String))
    (validate : ResolvedValidator → ValidationRequest → ValidationResult)
    (opts : DecoratorOptions) (req : Request)
    (h : cfg.skipIf = some (SkipIf.bool true)
      ∨ ∃ f, cfg.skipIf = some (SkipIf.fn f) ∧ f req = true) :
    canActivate cfg m validate opts req
      = { result := Except.ok true, request := req } := by
  have hskip : evalSkipIf cfg.skipIf req = true := by
    rcases h with h | ⟨f, hf, hfr⟩
    · simp [evalSkipIf, h]
    · simp [evalSkipIf, hf, hfr]
  simp [canActivate, hskip]

/-- Witness for C3: a configuration with skipIf = true passes immediately,
with a verification oracle that would reject everything. -/
theorem canActivate_skipIf_witness :
    canActivate { exCfg with skipIf := some (SkipIf.bool true) } exMap
        (fun _ _ => { success := false }) { } exReq
      = { result := Except.ok true, request := exReq } :=
  canActivate_skipIf { exCfg with skipIf := some (SkipIf.bool true) } exMap
    (fun _ _ => { success := false }) { } exReq (Or.inl rfl)

/-- Claim C6: the site identifier the guard hands to the resolver starts from
the x-recaptcha-sitekey header and is replaced by a configured entry's siteKey
exactly when the decorator names a (nonempty) site and some configured entry's
name equals it; with no decorator site, no configured sites array, or no
name match, the header value is used unchanged. -/
theorem resolveSiteKey_spec (cfg : RecaptchaConfig) (opts : DecoratorOptions)
    (req : Request) :
    (∀ s sites siteConfig, opts.site = some s → s ≠ "" →
      cfg.sites = some sites →
      sites.find? (fun site => site.name == some s) = some siteConfig →
      resolveSiteKey cfg opts req = some siteConfig.siteKey)
    ∧ (opts.site = none → resolveSiteKey cfg opts req = headerSiteKey req)
    ∧ (cfg.sites = none → resolveSiteKey cfg opts req = headerSiteKey req)
    ∧ (∀ s sites, opts.site = some s → cfg.sites = some sites →
      sites.find? (fun site => site.name == some s) = none →
      resolveSiteKey cfg opts req = headerSiteKey req) := by
  refine ⟨?_, ?_, ?_, ?_⟩
  · intro s sites siteConfig hsite hs hsites hfind
    simp [resolveSiteKey, hsite, hsites, hs, hfind]
  · intro hsite
    simp [resolveSiteKey, hsite]
  · intro hsites
    cases hsite : opts.site <;> simp [resolveSiteKey, hsite, hsites]
  · intro s sites hsite hsites hfind
    by_cases hs : s = ""
    · simp [resolveSiteKey, hsite, hsites, hs]
    · simp [resolveSiteKey, hsite, hsites, hs, hfind]

/-- Witness for C6: the decorator names the configured site "eufy", so its
siteKey "A" replaces the (absent) header value. -/
theorem resolveSiteKey_spec_witness :
    resolveSiteKey exCfg { site := some "eufy" } { } = some "A" :=
  (resolveSiteKey_spec exCfg { site := some "eufy" } { }).1 "eufy" [exSiteA]
    exSiteA rfl (by decide) rfl (by rfl)

/-- Claim C7 counterexample: a decorator score of 0 does not override the
module-level default — with decorator score 0 and module score 1/2, the score
handed to verification is 1/2, not the decorator's 0. -/
theorem decorator_zero_score_cex :
    resolvedScore { exCfg with score := some (1/2 : ℚ) } { score := some (0 : ℚ) }
      = some (1/2 : ℚ)
    ∧ (some (1/2 : ℚ) : Option ℚ) ≠ some (0 : ℚ) := by
  constructor
  · rfl
  · norm_num

/-- Claim C7 (amended): decorator-level options take precedence — the
decorator's response extractor is used when present (module extractor
otherwise), the decorator's remoteIp extractor is used when present (module
extractor otherwise, and `none` without error when neither exists), and the
decorator's score overrides the module-level default whenever it is nonzero
(a zero decorator score falls back to the module default, see the
counterexample). -/
theorem decorator_options_precedence (cfg : RecaptchaConfig)
    (opts : DecoratorOptions) (req : Request) :
    (∀ f, opts.response = some f → resolvedResponse cfg opts req = f req)
    ∧ (opts.response = none → resolvedResponse cfg opts req = cfg.response req)
    ∧ (∀ f, opts.remoteIp = some f → resolvedRemoteIp cfg opts req = f req)
    ∧ (∀ f, opts.remoteIp = none → cfg.remoteIp = some f →
        resolvedRemoteIp cfg opts req = f req)
    ∧ (opts.remoteIp = none → cfg.remoteIp = none →
        resolvedRemoteIp cfg opts req = none)
    ∧ (∀ q, opts.score = some q → q ≠ 0 → resolvedScore cfg opts = some q) := by
  refine ⟨?_, ?_, ?_, ?_, ?_, ?_⟩ <;> intros <;>
    simp_all [resolvedResponse, resolvedRemoteIp, resolvedScore]

/-- Witness for amended C7: a decorator response extractor and a nonzero
decorator score are both used over the module-level values. -/
theorem decorator_options_precedence_witness :
    resolvedResponse exCfg exOpts exReq = some "tok2"
    ∧ resolvedScore exCfg exOpts = some (8/10 : ℚ) :=
  ⟨(decorator_options_precedence exCfg exOpts exReq).1 (fun _ => some "tok2") rfl,
   (decorator_options_precedence exCfg exOpts exReq).2.2.2.2.2 (8/10 : ℚ) rfl
     (by norm_num)⟩

/-- Claim C8: once the guard reaches the verification call (skip is false and
the resolver returns a validator), it returns true exactly when the validation
result's success flag is true, and otherwise throws a GoogleRecaptchaException
carrying exactly the result's error list; no other outcome exists. -/
theorem canActivate_outcome (cfg : RecaptchaConfig) (m : List (String × String))
    (validate : ResolvedValidator → ValidationRequest → ValidationResult)
    (opts : DecoratorOptions) (req : Request) (v : ResolvedValidator)
    (hskip : evalSkipIf cfg.skipIf req = false)
    (hres : resolve cfg m (resolveSiteKey cfg opts req) = Except.ok v) :
    ((canActivate cfg m validate opts req).result = Except.ok true
      ↔ (validate v (guardValidationRequest cfg opts req)).success = true)
    ∧ ((validate v (guardValidationRequest cfg opts req)).success = false →
      (canActivate cfg m validate opts req).result = Except.error
        { errors := (validate v (guardValidationRequest cfg opts req)).errors,
          message := none }) := by
  constructor
  · cases hsucc : (validate v (guardValidationRequest cfg opts req)).success <;>
      simp [canActivate, hskip, hres, hsucc]
  · intro hfail
    simp [canActivate, hskip, hres, hfail]

/-- Witness for C8: a failing verification makes the guard throw the
exception carrying the result's LowScore error. -/
theorem canActivate_outcome_witness :
    (canActivate exCfg exMap exValidateFail { } exReq).result
      = Except.error { errors := [ErrorCode.LowScore], message := none } :=
  (canActivate_outcome exCfg exMap exValidateFail { } exReq
    (ResolvedValidator.standard (some "sA")) rfl (by rfl)).2 rfl

/-- Claim C9: once the guard reaches the verification call, the validation
result is stored in the request's recaptchaValidationResult field whatever
the success flag is — on the success path and on the exception path alike. -/
theorem canActivate_attaches_result (cfg : RecaptchaConfig)
    (m : List (String × String))
    (validate : ResolvedValidator → ValidationRequest → ValidationResult)
    (opts : DecoratorOptions) (req : Request) (v : ResolvedValidator)
    (hskip : evalSkipIf cfg.skipIf req = false)
    (hres : resolve cfg m (resolveSiteKey cfg opts req) = Except.ok v) :
    (canActivate cfg m validate opts req).request.recaptchaValidationResult
      = some (validate v (guardValidationRequest cfg opts req)) := by
  cases hsucc : (validate v (guardValidationRequest cfg opts req)).success <;>
    simp [canActivate, hskip, hres, hsucc]

/-- Witness for C9: on the failure path the result is attached to the
request. -/
theorem canActivate_attaches_result_witness :
    (canActivate exCfg exMap exValidateFail { } exReq).request.recaptchaValidationResult
      = some { success := false, errors := [ErrorCode.LowScore] } :=
  canActivate_attaches_result exCfg exMap exValidateFail { } exReq
    (ResolvedValidator.standard (some "sA")) rfl (by rfl)

/-- Claim C10: a decorator score of 0 is dropped by the truthiness fallback:
the resolved score is the module-level score, and the whole guard behaves as
if the decorator carried no score at all. -/
theorem canActivate_zero_score_falls_back (cfg : RecaptchaConfig)
    (m : List (String × String))
    (validate : ResolvedValidator → ValidationRequest → ValidationResult)
    (opts : DecoratorOptions) (req : Request) :
    resolvedScore cfg { opts with score := some (0 : ℚ) } = cfg.score
    ∧ canActivate cfg m validate { opts with score := some (0 : ℚ) } req
      = canActivate cfg m validate { opts with score := none } req := by
  constructor
  · simp [resolvedScore]
  · simp [canActivate, guardValidationRequest, resolvedScore, resolvedResponse,
      resolvedRemoteIp, resolveSiteKey]

end RecaptchaMultisite
